import Mathlib

/-
  Verification of the parse_vcf library (src/parse_vcf.py) against its
  natural-language specification.  Each Python routine relevant to the
  claims is shallowly embedded as an executable Lean definition; machine
  behaviour (ordered dicts, string splitting, exception classes) is made
  explicit.  Python exceptions are modelled by the `PyErr` type below and
  fallible routines return `Except PyErr _`.
-/

namespace ParseVcf

/-- Python exception classes that the embedded code can raise.
`parseError` and `headerError` are the two classes defined by the library
itself; the remaining constructors are Python builtin exceptions that the
source can raise (for instance the misspelled `ParseErrror` in
`_get_parsed_gt_fields` raises a `NameError` at runtime, and `in` applied
to `None` raises a `TypeError`). -/
inductive PyErr where
  | parseError (msg : String)
  | headerError (msg : String)
  | nameError (msg : String)
  | typeError (msg : String)
  | keyError (msg : String)
  | valueError (msg : String)
  | attributeError (msg : String)
  deriving DecidableEq, Repr

/-- Split a string at every occurrence of a separator character (Python
`str.split` with a one-character separator; empty pieces are kept). -/
def splitChar (sep : Char) (s : String) : List String :=
  (s.toList.splitOnP (fun c => c == sep)).map String.mk

/-- Helper for `splitOnceChar`: accumulate characters before the first
separator. -/
def splitOnceAux (sep : Char) : List Char → List Char → Option (String × String)
  | _, [] => none
  | acc, c :: cs =>
      if c = sep then some (String.mk acc.reverse, String.mk cs)
      else splitOnceAux sep (c :: acc) cs

/-- Python `s.split(sep, 1)` for a one-character separator: `some` of the
two pieces around the first occurrence, `none` when the separator is
absent. -/
def splitOnceChar (sep : Char) (s : String) : Option (String × String) :=
  splitOnceAux sep [] s.toList

/-! ## Allele minimization (`VcfRecord._minimize_alleles`, lines 695-714)

The source runs two `while` loops over a (ref, alt) pair of strings:
first it strips identical trailing characters while both strings have
length greater than 1, then it strips identical leading characters under
the same length condition, incrementing the position once per stripped
leading character.  Strings are modelled as `List Char`. -/

/-- Strip the common leading characters of two lists while both lists have
length at least 2 and the leading characters are equal.  This is the loop
body shared by both `while` loops of `_minimize_alleles` (the suffix loop
is obtained by applying it to the reversed strings). -/
def trimLoop : List Char → List Char → List Char × List Char
  | a :: b :: xs, c :: d :: ys =>
      if a = c then trimLoop (b :: xs) (d :: ys) else (a :: b :: xs, c :: d :: ys)
  | xs, ys => (xs, ys)

/-- The first `while` loop of `_minimize_alleles`: remove identical
suffixes while `len(ref) > 1 and len(alt) > 1`. -/
def suffixLoop (ref alt : List Char) : List Char × List Char :=
  let p := trimLoop ref.reverse alt.reverse
  (p.1.reverse, p.2.reverse)

/-- The second `while` loop of `_minimize_alleles`: remove identical
leading characters while `len(ref) > 1 and len(alt) > 1`, adding 1 to the
position for each removed character. -/
def prefixLoop : Int → List Char → List Char → Int × List Char × List Char
  | pos, a :: b :: xs, c :: d :: ys =>
      if a = c then prefixLoop (pos + 1) (b :: xs) (d :: ys)
      else (pos, a :: b :: xs, c :: d :: ys)
  | pos, xs, ys => (pos, xs, ys)

/-- Minimization of a single REF/ALT pair, as performed for each ALT
allele by `_minimize_alleles`: suffix trimming followed by prefix
trimming. -/
def minimize_allele (pos : Int) (ref alt : List Char) : Int × List Char × List Char :=
  let p := suffixLoop ref alt
  prefixLoop pos p.1 p.2

/-- `VcfRecord._minimize_alleles`: one `AltAllele (chrom, pos, ref, alt)`
per ALT allele, in ALT order.  `AltAllele` values are modelled as tuples
`(CHROM, POS, REF, ALT)`. -/
def minimize_alleles (chrom : String) (pos : Int) (ref : String)
    (alts : List String) : List (String × Int × String × String) :=
  alts.map fun alt =>
    let r := minimize_allele pos ref.toList alt.toList
    (chrom, r.1, String.mk r.2.1, String.mk r.2.2)

/-! ## Field type registry (`VcfHeader._set_field_translation`, lines 446-476) -/

/-- Python value classes stored in the translation registry: `str`,
`float`, `int`; a Flag stores `None` (modelled as `Option VClass` with
`none`). -/
inductive VClass where
  | int
  | float
  | str
  deriving DecidableEq, Repr

/-- Python `str.isdigit` restricted to ASCII decimal digits: true iff the
string is non-empty and every character is a digit. -/
def pyIsDigit (s : String) : Bool :=
  !s.toList.isEmpty && s.toList.all Char.isDigit

/-- Value of a decimal digit string (the `int(...)` conversion applied by
the source to a `Number` value that passed `isdigit`). -/
def digitsToNat (s : String) : Nat :=
  s.toList.foldl (fun acc c => acc * 10 + c.toNat - 48) 0

/-- The `split` local of `_set_field_translation`: `Number.isdigit()`
and `int(Number) > 1` decide the is-multi-valued bit; any non-digit
`Number` (`A`, `G`, `R`, `.`, ...) splits. -/
def numSplit (num : String) : Bool :=
  if pyIsDigit num then
    if digitsToNat num > 1 then true else false
  else true

/-- `VcfHeader._set_field_translation` for a single declared field, as a
function of the declared `Type` and `Number` strings.  Returns the pair
`(value class, split)` stored in the per-field-type translater dict;
`split` is the is-multi-valued bit.  An unrecognised `Type` raises
`ParseError`. -/
def set_field_translation (ty num : String) : Except PyErr (Option VClass × Bool) :=
  if ty = "String" ∨ ty = "Character" then Except.ok (some VClass.str, numSplit num)
  else if ty = "Float" then Except.ok (some VClass.float, numSplit num)
  else if ty = "Integer" then Except.ok (some VClass.int, numSplit num)
  else if ty ≠ "Flag" then
    Except.error (PyErr.parseError ("Unrecognised FORMAT Type " ++ ty ++ " in header"))
  else Except.ok (none, numSplit num)

/-! ## Fileformat check (`VcfHeader._parse_metadata`, lines 383-389) -/

/-- Core of the `_meta_re` regex `##(\S+?)=(.*)` applied with `re.match`:
after a literal `##`, lazily take the shortest non-empty run of
non-whitespace characters up to an `=`, returning (group 1, group 2).
`acc` accumulates group-1 characters in reverse. -/
def metaMatchAux : List Char → List Char → Option (String × String)
  | _, [] => none
  | acc, c :: cs =>
      if c = '=' ∧ ¬acc.isEmpty then some (String.mk acc.reverse, String.mk cs)
      else if c.isWhitespace then none
      else metaMatchAux (c :: acc) cs

/-- `VcfHeader._meta_re.match line`: `None` when the line does not start
with `##` or has no well-formed `key=` part. -/
def metaMatch (line : String) : Option (String × String) :=
  match line.toList with
  | '#' :: '#' :: rest => metaMatchAux [] rest
  | _ => none

/-- The exact message raised by `_parse_metadata` when the first
metaheader line is not a fileformat declaration (note the source
concatenates the two string literals without a space). -/
def fileformatErrMsg : String :=
  "Error: First line of VCF should be fileformatmetaheader (e.g. ##fileformat=VCFv4.2)"

/-- The fileformat check at the start of `VcfHeader._parse_metadata`:
match the first metaheader line against `_meta_re`; unless group 1 is
exactly `fileformat`, raise `ParseError`; otherwise return group 2 (the
version string).  An empty metaheader list hits `meta_header[0]` and
raises an `IndexError`, modelled as `keyError` rebadged - we use a
dedicated message. -/
def parse_fileformat (metaHeader : List String) : Except PyErr String :=
  match metaHeader with
  | [] => Except.error (PyErr.keyError "list index out of range")
  | l :: _ =>
      match metaMatch l with
      | some (k, v) =>
          if k = "fileformat" then pure v
          else Except.error (PyErr.parseError fileformatErrMsg)
      | none => Except.error (PyErr.parseError fileformatErrMsg)

/-! ## GT genotype parsing (`VcfRecord._get_parsed_gt_fields`, lines 1088-1099) -/

/-- `re.split` on the class `[\/\|]`: split a string at every `/` or `|`
character. -/
def gtSplit (s : String) : List String :=
  (s.toList.splitOnP (fun c => c = '/' ∨ c = '|')).map String.mk

/-- Python `int(...)` on a genotype token: an optional sign followed by a
non-empty run of digits.  Returns `none` when the conversion would raise
`ValueError`. -/
def pyIntParse (s : String) : Option Int :=
  match s.toList with
  | '-' :: ds => if ds ≠ [] ∧ ds.all Char.isDigit then some (-(digitsToNat (String.mk ds) : Int)) else none
  | '+' :: ds => if ds ≠ [] ∧ ds.all Char.isDigit then some ((digitsToNat (String.mk ds) : Int)) else none
  | ds => if ds ≠ [] ∧ ds.all Char.isDigit then some ((digitsToNat s : Int)) else none

/-- `traverse` of `pyIntParse` over the allele tokens: `some` iff every
token converts (the `tuple(int(x) for x in alleles)` expression succeeds). -/
def parseAllInts : List String → Option (List Int)
  | [] => some []
  | t :: ts => do
      let n ← pyIntParse t
      let ns ← parseAllInts ts
      pure (n :: ns)

/-- The `GT` special case of `_get_parsed_gt_fields` for a single raw
value: split on `/` or `|`; if every token parses as an integer, return
the tuple of allele indices; otherwise build the no-call tuple of one
`None` per `.` token, and if that tuple is empty attempt to raise
`ParseError` - but the source misspells the class name as `ParseErrror`,
so Python in fact raises a `NameError` at that line. -/
def parse_gt (val : String) : Except PyErr (List (Option Int)) :=
  let alleles := gtSplit val
  match parseAllInts alleles with
  | some ns => Except.ok (ns.map some)
  | none =>
      let nocall := (alleles.filter (fun t => t = ".")).map (fun _ => (none : Option Int))
      if nocall.isEmpty then
        Except.error (PyErr.nameError "name ParseErrror is not defined")
      else Except.ok nocall

/-! ## Phasing comparator (`VcfRecord.in_cis_with`, lines 1255-1295)

A record is modelled by the data `in_cis_with` consults: its FORMAT field
list (`GT_FORMAT`, which is Python `None` for a record with no FORMAT
column) and its per-sample raw call strings (`None` models a header whose
sample list is `None`, in which case `sample_calls()` iterates over
`None` and raises `TypeError`). -/

structure GtRecord where
  gtFormat : Option (List String)
  calls : Option (List (String × String))
  deriving Repr

/-- First value bound to a key in an association list (Python dict
lookup for dicts without duplicate insertions). -/
def alookup (key : String) : List (String × String) → Option String
  | [] => none
  | (k, v) :: rest => if k = key then some v else alookup key rest

/-- Lookup in the dict `dict(zip(fields, vals))`: `zip` truncates to the
shorter list and a duplicated field name keeps the *last* paired value
(later assignments overwrite earlier ones). -/
def zipDictGet (fields vals : List String) (key : String) : Option String :=
  ((fields.zip vals).reverse.find? (fun p => p.1 = key)).map (fun p => p.2)

/-- `self.sample_calls()[sample][field]` for a record with FORMAT fields
`fields` and raw calls `calls`: the sample raw string is split on `:` and
zipped with the FORMAT field names.  `none` models the `KeyError` caught
by `in_cis_with`. -/
def getPhase (fields : List String) (calls : List (String × String))
    (sample field : String) : Option String :=
  (alookup sample calls).bind fun raw => zipDictGet fields (splitChar ':' raw) field

/-- Python `list.index`: position of the first occurrence, `None`
modelling the `ValueError` (caught by `in_cis_with`). -/
def pyIndex (l : List String) (x : String) : Option Nat :=
  l.findIdx? (fun y => y = x)

/-- Message of the `TypeError` raised by `x in None`. -/
def notIterableMsg : String := "argument of type NoneType is not iterable"

/-- Message of the `TypeError` raised by iterating over `None`. -/
def noneNotIterableMsg : String := "NoneType object is not iterable"

/-- `VcfRecord.in_cis_with(sample, allele, other, other_allele)`,
following the source's evaluation order: the two `PID`/`PGT` membership
tests on `GT_FORMAT` (a `TypeError` when a record's `GT_FORMAT` is
`None`), then the four `sample_calls()` lookups inside `try` (a missing
sample or field is a `KeyError` and yields `False`; a `None` sample list
is a `TypeError`), then the phase-id and missing-PGT checks, then the two
`.index` calls whose `ValueError` also yields `False`. -/
def in_cis_with (r1 r2 : GtRecord) (sample : String)
    (allele otherAllele : Int) : Except PyErr Bool :=
  match r1.gtFormat with
  | none => Except.error (PyErr.typeError notIterableMsg)
  | some f1 =>
    if "PID" ∉ f1 then Except.ok false
    else match r2.gtFormat with
      | none => Except.error (PyErr.typeError notIterableMsg)
      | some f2 =>
        if "PID" ∉ f2 then Except.ok false
        else if "PGT" ∉ f1 then Except.ok false
        else if "PGT" ∉ f2 then Except.ok false
        else match r1.calls with
          | none => Except.error (PyErr.typeError noneNotIterableMsg)
          | some c1 =>
            match getPhase f1 c1 sample "PID" with
            | none => Except.ok false
            | some pid1 =>
              match r2.calls with
              | none => Except.error (PyErr.typeError noneNotIterableMsg)
              | some c2 =>
                match getPhase f2 c2 sample "PID",
                      getPhase f1 c1 sample "PGT",
                      getPhase f2 c2 sample "PGT" with
                | some pid2, some pgt1, some pgt2 =>
                    if pid1 ≠ pid2 then Except.ok false
                    else if pgt1 = "." ∨ pgt2 = "." then Except.ok false
                    else
                      match pyIndex (splitChar '|' pgt1) (toString allele),
                            pyIndex (splitChar '|' pgt2) (toString otherAllele) with
                      | some p1, some p2 => Except.ok (p1 == p2)
                      | _, _ => Except.ok false
                | _, _, _ => Except.ok false

/-- Spec-side reference definition of the phasing comparator, written
from the specification's words (section 4.6): false when either record's
FORMAT fields lack `PID` or `PGT`, when a sample lookup fails, when the
phase-ids differ, when either phase-genotype is the missing-value marker
`.`, or when either allele index cannot be located in its pipe-delimited
phase-genotype; true exactly when the two allele indices occupy the same
position.  The amended claim C4 compares `in_cis_with` against this
function. -/
def in_cis_spec (f1 f2 : List String) (c1 c2 : List (String × String))
    (sample : String) (a b : Int) : Bool :=
  decide ("PID" ∈ f1) && decide ("PID" ∈ f2) &&
  decide ("PGT" ∈ f1) && decide ("PGT" ∈ f2) &&
  (match getPhase f1 c1 sample "PID", getPhase f2 c2 sample "PID",
         getPhase f1 c1 sample "PGT", getPhase f2 c2 sample "PGT" with
   | some pid1, some pid2, some pgt1, some pgt2 =>
       pid1 == pid2 && !(pgt1 == ".") && !(pgt2 == ".") &&
       (match pyIndex (splitChar '|' pgt1) (toString a),
              pyIndex (splitChar '|' pgt2) (toString b) with
        | some p1, some p2 => p1 == p2
        | _, _ => false)
   | _, _, _, _ => false)

/-! ## INFO fields, `add_info_fields` and `SPAN`
    (`VcfRecord`, lines 718-800 and 851-865)

`INFO_FIELDS` is an `OrderedDict` whose values are strings for `key=value`
tokens, Python `True` for flags, and - after `add_info_fields` - whatever
the caller supplied (the docstring asks for lists of values).  Values are
therefore modelled by the `InfoVal` sum below, and the ordered dict by an
association list with Python dict semantics: assigning to an existing key
updates it in place, assigning a new key appends it. -/

inductive InfoVal where
  | str (s : String)
  | flag (b : Bool)
  | list (xs : List String)
  deriving DecidableEq, Repr

/-- Python `str` applied to an `InfoVal` (`str(True)`, and the `repr`
based rendering of a list of strings). -/
def pyStrOfVal : InfoVal → String
  | InfoVal.str s => s
  | InfoVal.flag b => if b then "True" else "False"
  | InfoVal.list xs =>
      let q := String.singleton (Char.ofNat 39)
      "[" ++ String.intercalate ", " (xs.map (fun x => q ++ x ++ q)) ++ "]"

/-- Ordered-dict assignment `d[k] = v`: update in place when the key
exists, append otherwise. -/
def dictSet (d : List (String × InfoVal)) (k : String) (v : InfoVal) :
    List (String × InfoVal) :=
  if d.any (fun p => p.1 = k) then
    d.map (fun p => if p.1 = k then (k, v) else p)
  else d ++ [(k, v)]

/-- Ordered-dict lookup `d[k]` (`none` = `KeyError`). -/
def dictGet (d : List (String × InfoVal)) (k : String) : Option InfoVal :=
  (d.find? (fun p => p.1 = k)).map (fun p => p.2)

/-- The `INFO_FIELDS` property: split the raw INFO string on `;`, then
each token on the first `=`; a token without `=` is a flag assigned
`True`.  Insertion is ordered-dict assignment, so order of first
appearance is kept. -/
def info_fields_of (info : String) : List (String × InfoVal) :=
  (splitChar ';' info).foldl
    (fun d tok =>
      match splitOnceChar '=' tok with
      | some (f, v) => dictSet d f (InfoVal.str v)
      | none => dictSet d tok (InfoVal.flag true))
    []

/-- `VcfRecord._rewrite_info_string` (lines 790-800) applied to an
ordered `INFO_FIELDS` dict.  The source tests `isinstance(v, bool)` and
appends the bare key, but the following `isinstance(v, list)` test is an
`if`, not an `elif`: a `bool` therefore *also* falls into its `else`
branch and appends `key=True` a second time. -/
def rewrite_info_string (fields : List (String × InfoVal)) : String :=
  String.intercalate ";"
    (fields.foldr
      (fun p acc =>
        (match p.2 with
         | InfoVal.flag _ => [p.1]
         | _ => []) ++
        (match p.2 with
         | InfoVal.list xs => [p.1 ++ "=" ++ String.intercalate "," xs]
         | v => [p.1 ++ "=" ++ pyStrOfVal v]) ++ acc)
      [])

/-- `VcfRecord._append_to_existing_info` (lines 769-788).  `hdrInfo`
gives, for a declared INFO field, the `Type` and `Number` strings of the
last header entry (`self.header.metadata['INFO'][field][-1]`).  The
fall-through path splits both the existing and the incoming value on `,`
and zips them with `|`; Python raises `AttributeError` when the existing
value has no `.split` (a flag or a list) and `TypeError` when a
non-string is concatenated to a string.  A Python `list += str` extends
the list with the individual characters of the string. -/
def append_to_existing_info (hdrInfo : String → Option (String × String))
    (fields : List (String × InfoVal)) (field : String) (v : InfoVal) :
    Except PyErr (List (String × InfoVal)) :=
  let generic : Except PyErr (List (String × InfoVal)) :=
    match dictGet fields field with
    | some (InfoVal.str cur) =>
        let old := splitChar ',' cur
        let nw := splitChar ',' (pyStrOfVal v)
        if old.length ≠ nw.length then
          Except.error (PyErr.parseError
            ("New " ++ field ++ " INFO field " ++ pyStrOfVal v ++
             "has differing number of values to existing field " ++ cur))
        else
          pure (dictSet fields field (InfoVal.str
            (String.intercalate ","
              ((old.zip nw).map (fun p => p.1 ++ "|" ++ p.2)))))
    | some _ => Except.error (PyErr.attributeError "object has no attribute split")
    | none => Except.error (PyErr.keyError field)
  match hdrInfo field with
  | some (ty, num) =>
      if ty = "Flag" then pure (dictSet fields field (InfoVal.flag true))
      else if num = "." ∨ num = "1" then
        let sep := if num = "." then "," else "|"
        match dictGet fields field, v with
        | some (InfoVal.str cur), InfoVal.str val =>
            pure (dictSet fields field (InfoVal.str (cur ++ sep ++ val)))
        | some (InfoVal.list xs), InfoVal.str val =>
            pure (dictSet fields field (InfoVal.list
              (xs ++ (sep ++ val).toList.map (fun c => String.mk [c]))))
        | some _, InfoVal.str _ =>
            Except.error (PyErr.typeError "unsupported operand types")
        | some _, _ =>
            Except.error (PyErr.typeError "can only concatenate str to str")
        | none, _ => Except.error (PyErr.keyError field)
      else generic
  | none => generic

/-- Lexicographic (code-point) comparison of strings, the order used by
Python `sorted` on dict items with distinct string keys. -/
def charListLt : List Char → List Char → Bool
  | [], [] => false
  | [], _ :: _ => true
  | _ :: _, [] => false
  | a :: as, b :: bs => if a = b then charListLt as bs else a < b

def strLt (a b : String) : Bool :=
  charListLt a.toList b.toList

/-- Insertion sort of the `info` mapping by key (`sorted(info.items())`
with unique keys). -/
def sortByKey (l : List (String × InfoVal)) : List (String × InfoVal) :=
  let rec ins (p : String × InfoVal) : List (String × InfoVal) → List (String × InfoVal)
    | [] => [p]
    | q :: rest => if strLt q.1 p.1 then q :: ins p rest else p :: q :: rest
  l.foldr ins []

/-- The mutable record state consulted by `add_info_fields` and `SPAN`:
`pos`/`ref` raw columns, the decoded `INFO_FIELDS` ordered dict, the raw
`INFO` string (mirrored into `cols[7]` by the source), and the private
`__SPAN` memoization cell. -/
structure RecState where
  pos : Int
  ref : String
  infoFields : List (String × InfoVal)
  info : String
  spanCache : Option Int
  deriving Repr

/-- `VcfRecord.add_info_fields(info, append_existing)` (lines 741-767):
process the given mapping in sorted key order, appending to or replacing
each key, then rebuild the INFO string via `_rewrite_info_string`. -/
def add_info_fields (hdrInfo : String → Option (String × String))
    (s : RecState) (info : List (String × InfoVal)) (appendExisting : Bool) :
    Except PyErr RecState :=
  match (sortByKey info).foldlM
      (fun fs p =>
        if appendExisting ∧ fs.any (fun q => q.1 = p.1) then
          append_to_existing_info hdrInfo fs p.1 p.2
        else pure (dictSet fs p.1 p.2))
      s.infoFields with
  | Except.error e => Except.error e
  | Except.ok fields =>
      Except.ok { s with infoFields := fields, info := rewrite_info_string fields }

/-- `int(...)` applied to an `INFO_FIELDS` value, as in
`int(self.INFO_FIELDS['END'])`: a string must parse as an integer
(`ValueError` otherwise), `int(True)` is 1 and `int(False)` is 0, and a
list raises `TypeError`. -/
def pyIntOfVal : InfoVal → Except PyErr Int
  | InfoVal.str s =>
      match pyIntParse s with
      | some n => Except.ok n
      | none => Except.error (PyErr.valueError ("invalid literal for int: " ++ s))
  | InfoVal.flag b => Except.ok (if b then 1 else 0)
  | InfoVal.list _ => Except.error (PyErr.typeError "int argument must not be a list")

/-- The `SPAN` property (lines 851-865): on a cache miss, the `END` INFO
field if present (converted with `int`), otherwise `POS + len(REF) - 1`;
the result is stored in the `__SPAN` cell.  On a cache hit the cached
value is returned unchanged. -/
def span (s : RecState) : Except PyErr (Int × RecState) :=
  match s.spanCache with
  | some v => Except.ok (v, s)
  | none =>
      match dictGet s.infoFields "END" with
      | some v =>
          match pyIntOfVal v with
          | Except.error e => Except.error e
          | Except.ok n => Except.ok (n, { s with spanCache := some n })
      | none =>
          let n := s.pos + (s.ref.length : Int) - 1
          Except.ok (n, { s with spanCache := some n })

/-! ## VEP consequence to ALT index (`VcfRecord._vep_to_alt`, lines 1157-1253)

The `_vep_allele` cache is a Python dict from allele strings to ALT
indices; it is modelled as an association list with insertion-order
iteration, in-place update and `pop`. -/

/-- Dict assignment for the `_vep_allele` cache. -/
def vinsert (d : List (String × Nat)) (k : String) (v : Nat) : List (String × Nat) :=
  if d.any (fun p => p.1 = k) then
    d.map (fun p => if p.1 = k then (k, v) else p)
  else d ++ [(k, v)]

/-- Dict lookup for the `_vep_allele` cache. -/
def vget (d : List (String × Nat)) (k : String) : Option Nat :=
  (d.find? (fun p => p.1 = k)).map (fun p => p.2)

/-- `d.pop(k, None)`: remove a key if present. -/
def vpop (d : List (String × Nat)) (k : String) : List (String × Nat) :=
  d.filter (fun p => p.1 ≠ k)

/-- Regex `\w` (ASCII): letter, digit or underscore. -/
def isWordChar (c : Char) : Bool :=
  c.isAlphanum || c = '_'

/-- Scanner for the `(\w+)(:\w+)*>` part of `_svalt_re`: `segOk`
records whether the segment seen since the last `:` (or since `<`) is
non-empty.  Word characters, `:` and `>` are mutually exclusive, so the
greedy regex is deterministic and equivalent to this scan. -/
def svTail : Bool → List Char → Bool
  | _, [] => false
  | segOk, c :: cs =>
      if c = '>' then segOk
      else if c = ':' then segOk && svTail false cs
      else if isWordChar c then svTail true cs
      else false

/-- `_svalt_re.match(alt)` for the pattern `<(\w+)(:\w+)*>`: a prefix
match (trailing characters after `>` are allowed) returning group 1, the
SV type token. -/
def svaltMatch (s : String) : Option String :=
  match s.toList with
  | '<' :: rest =>
      let g1 := rest.takeWhile isWordChar
      if g1.isEmpty then none
      else if svTail true rest then some (String.mk g1) else none
  | _ => none

/-- The breakend alphabet `[ACTGN]` of `_bnd_re`. -/
def isBndBase (c : Char) : Bool :=
  c = 'A' || c = 'C' || c = 'T' || c = 'G' || c = 'N'

/-- `_bnd_re.match(alt)` for the anchored pattern
`^(([ACTGN]*)[\[\]]\w+):\d+[\]\[]([ACGTN]*)$`, returning group 1
(leading bases, the bracket and the mate contig word). -/
def bndMatch (s : String) : Option String :=
  let cs := s.toList
  let pre := cs.takeWhile isBndBase
  match cs.dropWhile isBndBase with
  | b :: rest1 =>
      if b = '[' ∨ b = ']' then
        let w := rest1.takeWhile isWordChar
        if w.isEmpty then none
        else
          match rest1.dropWhile isWordChar with
          | ':' :: rest3 =>
              let ds := rest3.takeWhile Char.isDigit
              if ds.isEmpty then none
              else
                match rest3.dropWhile Char.isDigit with
                | b2 :: rest5 =>
                    if (b2 = '[' ∨ b2 = ']') ∧ rest5.all isBndBase then
                      some (String.mk (pre ++ b :: w))
                    else none
                | [] => none
          | _ => none
      else none
  | [] => none

/-- Result of the `for i in range(1, len(self.ALLELES))` loop of
`_vep_to_alt`: either the early `return i` taken inside the
deletion/insertion/duplication special case, or the final cache and
classification flags. -/
inductive VepLoopRes where
  | early (i : Nat) (cache : List (String × Nat))
  | done (cache : List (String × Nat))
      (isSv isSnv isMnv isIndel asterisk : Bool)
  deriving Repr

/-- The classification loop of `_vep_to_alt` over the indexed ALT
alleles.  `ref` is `ALLELES[0]` and `allele` the annotation's `Allele`
value; the five booleans accumulate exactly as the Python locals
`is_sv`, `is_snv`, `is_mnv`, `is_indel` and `asterisk` do (note that the
deletion/insertion/duplication special case tests the *accumulated*
`is_indel` flag). -/
def vepLoop (ref allele : String) :
    List (Nat × String) → List (String × Nat) → Bool → Bool → Bool → Bool → Bool →
    VepLoopRes
  | [], cache, sv, snv, mnv, indel, ast => VepLoopRes.done cache sv snv mnv indel ast
  | (i, alt) :: rest, cache, sv, snv, mnv, indel, ast =>
    if alt = "*" then
      vepLoop ref allele rest (vinsert cache "*" i) sv snv mnv indel true
    else
      match svaltMatch alt, bndMatch alt with
      | some g, _ =>
          let svType := if allele = "-" then "-" else g
          let key :=
            if svType = "DUP" then "duplication"
            else if svType = "INS" then "insertion"
            else if svType = "DEL" then "deletion"
            else svType
          vepLoop ref allele rest (vinsert cache key i) true snv mnv indel ast
      | none, some g =>
          let svType := if allele = "-" then "-" else g
          let key :=
            if svType = "DUP" then "duplication"
            else if svType = "INS" then "insertion"
            else if svType = "DEL" then "deletion"
            else svType
          vepLoop ref allele rest (vinsert cache key i) true snv mnv indel ast
      | none, none =>
          let snv2 := if alt.length = 1 ∧ ref.length = 1 then (if alt ≠ ref then true else snv) else snv
          let mnv2 := if alt.length = 1 ∧ ref.length = 1 then mnv
                      else if alt.length = ref.length then true else mnv
          let indel2 := if alt.length = 1 ∧ ref.length = 1 then indel
                        else if alt.length = ref.length then indel else true
          if indel2 then
            if allele = "deletion" ∧ alt.length < ref.length then
              VepLoopRes.early i (vinsert cache allele i)
            else if allele = "insertion" ∧ alt.length > ref.length then
              VepLoopRes.early i (vinsert cache allele i)
            else if allele = "duplication" ∧ alt.length > ref.length then
              VepLoopRes.early i (vinsert cache allele i)
            else vepLoop ref allele rest (vinsert cache alt i) sv snv2 mnv2 indel2 ast
          else vepLoop ref allele rest (vinsert cache alt i) sv snv2 mnv2 indel2 ast

/-- The VEP first-base trimming of the `_vep_allele` cache: every non-`*`
key is popped and re-inserted left-trimmed by one character (an emptied
key becomes `-`), reproducing the `trimmed`/`pop` loop of the source. -/
def vepTrimCache (cache : List (String × Nat)) : List (String × Nat) :=
  let entries := cache.filter (fun p => p.1 ≠ "*")
  let trimmed := entries.foldl
    (fun t p =>
      vinsert t (if p.1.length > 1 then String.mk (p.1.toList.drop 1) else "-") p.2) []
  let popped := entries.foldl (fun c p => vpop c p.1) cache
  trimmed.foldl (fun c p => vinsert c p.1 p.2) popped

/-- `VcfRecord._vep_to_alt(csq)`: resolve the annotation dict `ann`
(field name to value) to an ALT index, given the record's `ALLELES` list
and the current `_vep_allele` cache; returns the resolved index together
with the updated cache.  A missing `Allele` field, or a final lookup
miss, is an uncaught `KeyError`. -/
def vep_to_alt (alleles : List String) (ann : List (String × String))
    (cache : List (String × Nat)) : Except PyErr (Nat × List (String × Nat)) :=
  match alookup "Allele" ann with
  | none => Except.error (PyErr.keyError "Allele")
  | some allele =>
    match vget cache allele with
    | some i => pure (i, cache)
    | none =>
      let ref := alleles.headD ""
      match vepLoop ref allele (List.enumFrom 1 (alleles.drop 1)) cache
              false false false false false with
      | VepLoopRes.early i cache2 => pure (i, cache2)
      | VepLoopRes.done cache2 isSv isSnv isMnv isIndel ast =>
        if isSv then
          if isSnv ∨ isMnv ∨ isIndel then
            Except.error (PyErr.parseError
              "Unable to parse structural variants at the same site as a non-structural variant")
          else match vget cache2 allele with
            | some i => pure (i, cache2)
            | none => Except.error (PyErr.keyError allele)
        else
          if ¬isSnv ∧ (isIndel ∨ (isMnv ∧ ast)) then
            let refStart := ref.toList.take 1
            let firstBaseDiffers :=
              (alleles.drop 1).any (fun alt => alt ≠ "*" ∧ alt.toList.take 1 ≠ refStart)
            let cache3 := if ¬firstBaseDiffers then vepTrimCache cache2 else cache2
            match vget cache3 allele with
            | some i => pure (i, cache3)
            | none => Except.error (PyErr.keyError allele)
          else match vget cache2 allele with
            | some i => pure (i, cache2)
            | none => Except.error (PyErr.keyError allele)

/-- The `alt_index` resolution of the `CSQ` property (lines 1144-1149):
a single ALT allele maps to index 1 unconditionally; an explicit
`ALLELE_NUM` field is used directly; otherwise `_vep_to_alt` runs. -/
def alt_index (alleles : List String) (ann : List (String × String))
    (cache : List (String × Nat)) : Except PyErr (Int × List (String × Nat)) :=
  if alleles.length = 2 then pure (1, cache)
  else match alookup "ALLELE_NUM" ann with
    | some v =>
        match pyIntParse v with
        | some n => pure (n, cache)
        | none => Except.error (PyErr.valueError ("invalid literal for int: " ++ v))
    | none => do
        let r ← vep_to_alt alleles ann cache
        pure ((r.1 : Int), r.2)

/-! ## Record construction and text form
    (`VcfRecord.__init__` line 598, `__str__` lines 635-641, `CALLS`
    lines 886-895)

`__init__` stores `line.split("\t", 9)` in `self.cols`; `__str__` joins
`self.cols` back with tabs; the `CALLS` property pops the last element of
`cols` and extends `cols` with its full tab-split.  Lines and columns are
modelled as `List Char`. -/

/-- Prepend a character to the first piece of a split result. -/
def consHead (c : Char) : List (List Char) → List (List Char)
  | [] => [[c]]
  | x :: xs => (c :: x) :: xs

/-- Python `line.split("\t", maxsplit)`: split at the leftmost tabs
only, at most `n` times; empty pieces are kept. -/
def splitLim (n : Nat) : List Char → List (List Char)
  | [] => [[]]
  | c :: cs =>
      if c = '\t' ∧ 0 < n then [] :: splitLim (n - 1) cs
      else consHead c (splitLim n cs)

/-- Python `s.split("\t")` without a maxsplit. -/
def splitAllTab : List Char → List (List Char)
  | [] => [[]]
  | c :: cs =>
      if c = '\t' then [] :: splitAllTab cs
      else consHead c (splitAllTab cs)

/-- Python `"\t".join(cols)`, the body of `VcfRecord.__str__`. -/
def joinTab : List (List Char) → List Char
  | [] => []
  | [x] => x
  | x :: xs => x ++ '\t' :: joinTab xs

/-- `VcfRecord.__init__` as far as it concerns the claim: split the line
into at most 10 columns; fewer than 8 columns is a `ParseError`, and a
`POS` column that does not convert with `int` is an uncaught
`ValueError`.  On success the stored `cols` list is returned. -/
def record_of_line (line : List Char) : Except PyErr (List (List Char)) :=
  if (splitLim 9 line).length < 8 then
    Except.error (PyErr.parseError "Not enough columns for following line")
  else
    match pyIntParse (String.mk ((splitLim 9 line).getD 1 [])) with
    | none => Except.error (PyErr.valueError "invalid literal for int")
    | some _ => Except.ok (splitLim 9 line)

/-- The `cols` mutation performed by the `CALLS` property when the header
has sample columns: `calls = self.cols.pop(); self.cols.extend(calls.split("\t"))`. -/
def calls_split (cols : List (List Char)) : List (List Char) :=
  cols.dropLast ++ splitAllTab (cols.getLastD [])

/-! Helper lemmas: both loops return their input unchanged as soon as the
loop condition fails. -/

theorem trimLoop_eq_self (a b : List Char)
    (h : ¬(1 < a.length ∧ 1 < b.length ∧ a.head? = b.head?)) :
    trimLoop a b = (a, b) := by
  match a, b with
  | [], ys => rfl
  | [x], ys => cases ys with
    | nil => rfl
    | cons c t => cases t <;> rfl
  | x :: y :: xs, [] => rfl
  | x :: y :: xs, [c] => rfl
  | x :: y :: xs, c :: d :: ys =>
      simp only [List.length_cons, List.head?_cons] at h
      have hne : ¬ x = c := by
        intro hxc
        exact h ⟨by omega, by omega, by simp [hxc]⟩
      simp [trimLoop, hne]

theorem prefixLoop_eq_self (pos : Int) (a b : List Char)
    (h : ¬(1 < a.length ∧ 1 < b.length ∧ a.head? = b.head?)) :
    prefixLoop pos a b = (pos, a, b) := by
  match a, b with
  | [], ys => rfl
  | [x], ys => cases ys with
    | nil => rfl
    | cons c t => cases t <;> rfl
  | x :: y :: xs, [] => rfl
  | x :: y :: xs, [c] => rfl
  | x :: y :: xs, c :: d :: ys =>
      simp only [List.length_cons, List.head?_cons] at h
      have hne : ¬ x = c := by
        intro hxc
        exact h ⟨by omega, by omega, by simp [hxc]⟩
      simp [prefixLoop, hne]

theorem suffixLoop_eq_self (a b : List Char)
    (h : ¬(1 < a.length ∧ 1 < b.length ∧ a.getLast? = b.getLast?)) :
    suffixLoop a b = (a, b) := by
  have hrev : trimLoop a.reverse b.reverse = (a.reverse, b.reverse) := by
    apply trimLoop_eq_self
    simpa [List.head?_reverse] using h
  simp [suffixLoop, hrev]

theorem string_mk_toList (s : String) : String.mk s.toList = s := rfl

/-! ## Claim C1 -/

/-- Claim C1 as stated is false: on a record with REF `ATG`, ALT `ATGTG`
and POS 100, `_minimize_alleles` does *not* produce REF `G`, ALT `GTG`,
pos 102 (stripping trailing characters first leaves REF `A`, ALT `ATG`
at pos 100, and the prefix loop then stops because `len(ref)` is 1). -/
theorem C1_counterexample :
    minimize_alleles "chr1" 100 "ATG" ["ATGTG"] ≠ [("chr1", 102, "G", "GTG")] := by
  decide

/-- Claim C1, amended: for a record with REF `ATG`, ALT `ATGTG` and POS
100, the allele-minimization algorithm strips identical trailing
characters first while both strings exceed length 1 (removing `TG`), at
which point REF has length 1 and the leading-character loop cannot run:
the minimal representation produced is REF `A`, ALT `ATG` at pos 100. -/
theorem C1_minimize_worked_example :
    minimize_alleles "chr1" 100 "ATG" ["ATGTG"] = [("chr1", 100, "A", "ATG")] := by
  rfl

/-! ## Claim C9 -/

/-- Claim C9: allele normalization is idempotent - for a REF/ALT pair on
which neither trimming loop can make progress (it is not the case that
both strings have length greater than 1 with equal last characters, nor
with equal first characters), `_minimize_alleles` returns the same
chrom, pos, ref and alt unchanged. -/
theorem C9_minimize_idempotent (chrom : String) (pos : Int) (ref alt : String)
    (hSuf : ¬(1 < ref.toList.length ∧ 1 < alt.toList.length ∧
        ref.toList.getLast? = alt.toList.getLast?))
    (hPre : ¬(1 < ref.toList.length ∧ 1 < alt.toList.length ∧
        ref.toList.head? = alt.toList.head?)) :
    minimize_alleles chrom pos ref [alt] = [(chrom, pos, ref, alt)] := by
  have hs := suffixLoop_eq_self ref.data alt.data hSuf
  have hp := prefixLoop_eq_self pos ref.data alt.data hPre
  simp [minimize_alleles, minimize_allele, hs, hp]

/-- Witness for C9: the already-minimal pair REF `G`, ALT `GTG` (the
suffix loop cannot run because `len(ref)` is 1) is returned unchanged. -/
theorem C9_witness :
    minimize_alleles "chr1" 102 "G" ["GTG"] = [("chr1", 102, "G", "GTG")] :=
  C9_minimize_idempotent "chr1" 102 "G" "GTG" (by decide) (by decide)

/-! ## Claim C5 -/

/-- Claim C5 as stated is false: a declared INFO/FORMAT field with
`Type=Integer` and `Number=0` is *not* marked multi-valued by
`_set_field_translation`, although its Number is neither `1` nor the
field a Flag (the source sets `split` from `Number.isdigit()` and
`int(Number) > 1` alone). -/
theorem C5_counterexample :
    set_field_translation "Integer" "0" = Except.ok (some VClass.int, false) ∧
    (Except.ok (some VClass.int, false) : Except PyErr (Option VClass × Bool)) ≠
      Except.ok (some VClass.int, true) := by
  exact ⟨rfl, by simp⟩

/-- Claim C5, amended: whenever `_set_field_translation` succeeds, the
is-multi-valued flag it records is true exactly when the declared
`Number` is *not* a digit string of value at most 1 - so every symbolic
code (`A`, `G`, `R`, `.`) and every integer above 1 yields true, but
`Number=0` yields false even for non-Flags, and a Flag declared with a
symbolic Number yields true; the flag does not depend on `Type`. -/
theorem C5_multi_valued_iff (ty num : String) (res : Option VClass × Bool)
    (h : set_field_translation ty num = Except.ok res) :
    res.2 = true ↔ ¬(pyIsDigit num = true ∧ digitsToNat num ≤ 1) := by
  have hsplit : res.2 = numSplit num := by
    unfold set_field_translation at h
    split at h
    · cases h
      rfl
    · split at h
      · cases h
        rfl
      · split at h
        · cases h
          rfl
        · split at h
          · exact Except.noConfusion h
          · cases h
            rfl
  rw [hsplit]
  unfold numSplit
  by_cases hd : pyIsDigit num = true
  · by_cases hn : digitsToNat num > 1
    · rw [if_pos hd, if_pos hn]
      constructor
      · intro _ hc
        exact absurd hc.2 (by omega)
      · intro _
        rfl
    · rw [if_pos hd, if_neg hn]
      constructor
      · intro hfalse
        exact absurd hfalse (by simp)
      · intro hc
        exact absurd ⟨hd, by omega⟩ hc
  · rw [if_neg hd]
    constructor
    · intro _ hc
      exact hd hc.1
    · intro _
      rfl

/-- Witness for C5: `Number=A` with `Type=Integer` is marked
multi-valued, and indeed `A` is not a digit string. -/
theorem C5_witness :
    ((some VClass.int, true) : Option VClass × Bool).2 = true ↔
      ¬(pyIsDigit "A" = true ∧ digitsToNat "A" ≤ 1) :=
  C5_multi_valued_iff "Integer" "A" (some VClass.int, true) (by rfl)

/-! ## Claim C7 -/

/-- Claim C7 as stated is false: a header whose first metaheader line is
not a `##fileformat=` declaration makes `_parse_metadata` raise
`ParseError` - the record-level error class - not the `HeaderError`
class reserved for header problems. -/
theorem C7_counterexample :
    parse_fileformat ["##source=prog"] =
      Except.error (PyErr.parseError fileformatErrMsg) ∧
    (Except.error (PyErr.parseError fileformatErrMsg) :
        Except PyErr String) ≠
      Except.error (PyErr.headerError fileformatErrMsg) := by
  exact ⟨rfl, by simp⟩

/-- Claim C7, amended: for every header whose first metaheader line does
not declare the file format version, header construction fails
immediately, but with a `ParseError` (the record-level error class), not
a `HeaderError`. -/
theorem C7_missing_fileformat (l : String) (ls : List String)
    (h : ∀ k v, metaMatch l = some (k, v) → k ≠ "fileformat") :
    parse_fileformat (l :: ls) = Except.error (PyErr.parseError fileformatErrMsg) := by
  cases hm : metaMatch l with
  | none => simp [parse_fileformat, hm]
  | some kv =>
      obtain ⟨k, v⟩ := kv
      simp [parse_fileformat, hm, h k v hm]

/-- Witness for C7: a header starting with a `##source=` line fails with
`ParseError`. -/
theorem C7_witness :
    parse_fileformat ["##source=prog"] =
      Except.error (PyErr.parseError fileformatErrMsg) :=
  C7_missing_fileformat "##source=prog" [] (by
    intro k v h
    rw [show metaMatch "##source=prog" = some ("source", "prog") from rfl] at h
    cases h
    decide)

/-! ## Claim C3 -/

/-- Claim C3 as stated is false on both counts: the mixed genotype
`0/.` does *not* raise - `_get_parsed_gt_fields` returns the no-call
tuple `(None,)` built from its single dot token - and the genuinely
malformed `0/x` raises a `NameError` (the source misspells the exception
class as `ParseErrror`), not a `ParseError`. -/
theorem C3_counterexample :
    parse_gt "0/." = Except.ok [none] ∧
    parse_gt "0/x" = Except.error (PyErr.nameError "name ParseErrror is not defined") := by
  exact ⟨rfl, rfl⟩

theorem map_none_filter (l : List String) (p : String → Bool) :
    (l.filter p).map (fun _ => (none : Option Int)) =
      List.replicate (l.countP p) none := by
  induction l with
  | nil => rfl
  | cons x xs ih =>
      by_cases hx : p x
      · simp [List.filter_cons, List.countP_cons, hx, List.replicate_succ, ih]
      · simp [List.filter_cons, List.countP_cons, hx, ih]

/-- Claim C3, amended: for every GT value whose tokens do not all parse
as integers, the parser returns the no-call tuple of one `None` per `.`
token when at least one token is `.` (so `0/.` is a partial no-call, not
an error), and otherwise attempts to raise a parse error but - the
exception class name being misspelled `ParseErrror` in the source -
actually raises a `NameError`. -/
theorem C3_gt_malformed (val : String)
    (h : parseAllInts (gtSplit val) = none) :
    parse_gt val =
      if (gtSplit val).any (fun t => t = ".") then
        Except.ok (List.replicate ((gtSplit val).countP (fun t => t = "."))
          (none : Option Int))
      else Except.error (PyErr.nameError "name ParseErrror is not defined") := by
  simp only [parse_gt, h, map_none_filter]
  by_cases ha : (gtSplit val).any (fun t => t = ".") = true
  · have hc : 0 < (gtSplit val).countP (fun t => t = ".") := by
      obtain ⟨x, hx, hpx⟩ := List.any_eq_true.mp ha
      exact List.countP_pos_iff.mpr ⟨x, hx, hpx⟩
    have hni : (List.replicate ((gtSplit val).countP (fun t => t = "."))
        (none : Option Int)).isEmpty = false := by
      cases hcp : (gtSplit val).countP (fun t => t = ".") with
      | zero => omega
      | succ n => simp [List.replicate_succ]
    simp [hni, ha]
  · have hz : (gtSplit val).countP (fun t => t = ".") = 0 := by
      rw [List.countP_eq_zero]
      intro a hal
      by_contra hpa
      exact ha (List.any_eq_true.mpr ⟨a, hal, by simpa using hpa⟩)
    simp [hz, ha]

/-- Witness for C3: the amended statement applied to the concrete mixed
genotype `0/.`. -/
theorem C3_witness :
    parse_gt "0/." =
      (if (gtSplit "0/.").any (fun t => t = ".") then
        Except.ok (List.replicate ((gtSplit "0/.").countP (fun t => t = "."))
          (none : Option Int))
      else Except.error (PyErr.nameError "name ParseErrror is not defined")) :=
  C3_gt_malformed "0/." (by rfl)

/-! ## Claim C8 -/

theorem splitLim_ne_nil (n : Nat) (cs : List Char) : splitLim n cs ≠ [] := by
  cases cs with
  | nil => simp [splitLim]
  | cons c cs =>
      rw [splitLim]
      split
      · simp
      · cases h : splitLim n cs with
        | nil => simp [consHead]
        | cons x xs => simp [consHead]

theorem splitAllTab_ne_nil (cs : List Char) : splitAllTab cs ≠ [] := by
  cases cs with
  | nil => simp [splitAllTab]
  | cons c cs =>
      rw [splitAllTab]
      split
      · simp
      · cases h : splitAllTab cs with
        | nil => simp [consHead]
        | cons x xs => simp [consHead]

theorem joinTab_cons (x : List Char) (l : List (List Char)) (h : l ≠ []) :
    joinTab (x :: l) = x ++ '\t' :: joinTab l := by
  cases l with
  | nil => exact absurd rfl h
  | cons y ys => rfl

theorem joinTab_consHead (c : Char) (l : List (List Char)) (h : l ≠ []) :
    joinTab (consHead c l) = c :: joinTab l := by
  cases l with
  | nil => exact absurd rfl h
  | cons x xs =>
      cases xs with
      | nil => rfl
      | cons y ys => rfl

theorem joinTab_splitLim (cs : List Char) : ∀ n, joinTab (splitLim n cs) = cs := by
  induction cs with
  | nil => intro n; rfl
  | cons c cs ih =>
      intro n
      rw [splitLim]
      split
      · next hc =>
          rw [joinTab_cons [] (splitLim (n - 1) cs) (splitLim_ne_nil _ _), ih]
          simp [hc.1]
      · next hc =>
          rw [joinTab_consHead c (splitLim n cs) (splitLim_ne_nil _ _), ih]

theorem joinTab_splitAllTab (cs : List Char) : joinTab (splitAllTab cs) = cs := by
  induction cs with
  | nil => rfl
  | cons c cs ih =>
      rw [splitAllTab]
      split
      · next hc =>
          rw [joinTab_cons [] (splitAllTab cs) (splitAllTab_ne_nil _), ih]
          simp [hc]
      · next hc =>
          rw [joinTab_consHead c (splitAllTab cs) (splitAllTab_ne_nil _), ih]

theorem joinTab_calls_split (cols : List (List Char)) (h : cols ≠ []) :
    joinTab (calls_split cols) = joinTab cols := by
  induction cols with
  | nil => exact absurd rfl h
  | cons x xs ih =>
      cases xs with
      | nil =>
          simp only [calls_split, List.dropLast_single, List.getLastD]
          simpa [joinTab] using joinTab_splitAllTab x
      | cons y ys =>
          have hys : (y :: ys : List (List Char)) ≠ [] := by simp
          have hrest : calls_split (y :: ys) ≠ [] := by
            simp only [calls_split]
            intro hc
            exact splitAllTab_ne_nil _ (List.append_eq_nil.mp hc).2
          have hstep : calls_split (x :: y :: ys) = x :: calls_split (y :: ys) := by
            simp [calls_split, List.dropLast_cons_of_ne_nil hys, List.getLastD_cons]
          rw [hstep, joinTab_cons x _ hrest, ih hys,
              joinTab_cons x (y :: ys) hys]

/-- Claim C8: rendering a freshly constructed record back to text
(`__str__` joins `self.cols` with tabs) reproduces the original input
line exactly, and this remains true after the `CALLS` property has
re-split the final column (popping the last element of `cols` and
extending with its tab-split). -/
theorem C8_round_trip (line : List Char) (cols : List (List Char))
    (h : record_of_line line = Except.ok cols) :
    joinTab cols = line ∧ joinTab (calls_split cols) = line := by
  have hcols : cols = splitLim 9 line := by
    unfold record_of_line at h
    split at h
    · exact Except.noConfusion h
    · split at h
      · exact Except.noConfusion h
      · cases h
        rfl
  subst hcols
  refine ⟨joinTab_splitLim line 9, ?_⟩
  rw [joinTab_calls_split _ (splitLim_ne_nil 9 line)]
  exact joinTab_splitLim line 9

/-- Witness for C8: a concrete 10-column record line round-trips both
before and after the `CALLS` splitting. -/
theorem C8_witness :
    joinTab (splitLim 9 ("1\t100\trs1\tA\tT\t50\tPASS\tDP=3\tGT:PID:PGT\t0/1:100_A_G:0|1\t1/1:.:.").toList) =
      ("1\t100\trs1\tA\tT\t50\tPASS\tDP=3\tGT:PID:PGT\t0/1:100_A_G:0|1\t1/1:.:.").toList ∧
    joinTab (calls_split (splitLim 9 ("1\t100\trs1\tA\tT\t50\tPASS\tDP=3\tGT:PID:PGT\t0/1:100_A_G:0|1\t1/1:.:.").toList)) =
      ("1\t100\trs1\tA\tT\t50\tPASS\tDP=3\tGT:PID:PGT\t0/1:100_A_G:0|1\t1/1:.:.").toList :=
  C8_round_trip _ _ (by rfl)

/-! ## Claim C10 -/

theorem add_info_fields_spanCache (hdr : String → Option (String × String))
    (s : RecState) (m : List (String × InfoVal)) (ae : Bool) (s2 : RecState)
    (h : add_info_fields hdr s m ae = Except.ok s2) :
    s2.spanCache = s.spanCache := by
  unfold add_info_fields at h
  split at h
  · exact Except.noConfusion h
  · cases h
    rfl

/-- Claim C10: the `SPAN` property equals `int(INFO_FIELDS['END'])` when
the `END` key is present (here: present with a string value that parses
as an integer), and `POS + len(REF) - 1` otherwise; the computed value is
memoized in the `__SPAN` cell on first access, so a later
`add_info_fields` mutation leaves an already-computed `SPAN`
unchanged. -/
theorem C10_span_spec :
    (∀ (s : RecState) (v : String) (n : Int), s.spanCache = none →
        dictGet s.infoFields "END" = some (InfoVal.str v) →
        pyIntParse v = some n →
        span s = Except.ok (n, { s with spanCache := some n })) ∧
    (∀ s : RecState, s.spanCache = none →
        dictGet s.infoFields "END" = none →
        span s = Except.ok (s.pos + (s.ref.length : Int) - 1,
          { s with spanCache := some (s.pos + (s.ref.length : Int) - 1) })) ∧
    (∀ (hdr : String → Option (String × String)) (s s2 : RecState)
        (m : List (String × InfoVal)) (ae : Bool) (v : Int),
        s.spanCache = some v →
        add_info_fields hdr s m ae = Except.ok s2 →
        span s2 = Except.ok (v, s2)) := by
  refine ⟨?_, ?_, ?_⟩
  · intro s v n h1 h2 h3
    unfold span
    rw [h1, h2]
    simp [pyIntOfVal, h3]
  · intro s h1 h2
    unfold span
    rw [h1, h2]
  · intro hdr s s2 m ae v h1 h2
    have hc : s2.spanCache = some v := by
      rw [add_info_fields_spanCache hdr s m ae s2 h2, h1]
    unfold span
    rw [hc]

/-- Witness for C10: all three parts at concrete records - `END=200`
gives 200, no `END` gives `100 + 3 - 1`, and after replacing `END` by
`999` via `add_info_fields` the memoized span is still 200. -/
theorem C10_witness :
    span ⟨100, "ATG", [("END", InfoVal.str "200")], "END=200", none⟩ =
      Except.ok (200, ⟨100, "ATG", [("END", InfoVal.str "200")], "END=200", some 200⟩) ∧
    span ⟨100, "ATG", [("DP", InfoVal.str "3")], "DP=3", none⟩ =
      Except.ok (102, ⟨100, "ATG", [("DP", InfoVal.str "3")], "DP=3", some 102⟩) ∧
    span ⟨100, "ATG", [("END", InfoVal.str "999")], "END=999", some 200⟩ =
      Except.ok (200, ⟨100, "ATG", [("END", InfoVal.str "999")], "END=999", some 200⟩) :=
  ⟨C10_span_spec.1 ⟨100, "ATG", [("END", InfoVal.str "200")], "END=200", none⟩
      "200" 200 rfl rfl rfl,
   C10_span_spec.2.1 ⟨100, "ATG", [("DP", InfoVal.str "3")], "DP=3", none⟩ rfl rfl,
   C10_span_spec.2.2 (fun _ => none)
      ⟨100, "ATG", [("END", InfoVal.str "200")], "END=200", some 200⟩
      ⟨100, "ATG", [("END", InfoVal.str "999")], "END=999", some 200⟩
      [("END", InfoVal.str "999")] false 200 rfl (by rfl)⟩

/-! ## Claim C2 -/

/-- Claim C2 fails because of a bug in `_rewrite_info_string`: the
`isinstance(v, list)` test is an `if` where an `elif` was intended, so a
Flag value (a Python `bool`) is appended twice - once bare and once as
`key=True`.  On a record whose INFO column is the single flag `DB`,
adding `AC=5` rebuilds the INFO string as `DB;DB=True;AC=5` rather than
the claimed flag-bare rendering `DB;AC=5`, and re-parsing the rebuilt
string yields `DB -> "True"` (a string), no longer the flag `True` of
the structured view: the divergence is observable through string
rendering. -/
theorem C2_flag_rendering :
    (add_info_fields (fun _ => none)
        ⟨100, "A", info_fields_of "DB", "DB", none⟩
        [("AC", InfoVal.str "5")] false).map (fun s => s.info) =
      Except.ok "DB;DB=True;AC=5" ∧
    (Except.ok "DB;DB=True;AC=5" : Except PyErr String) ≠ Except.ok "DB;AC=5" ∧
    info_fields_of "DB" = [("DB", InfoVal.flag true)] ∧
    info_fields_of "DB;DB=True;AC=5" =
      [("DB", InfoVal.str "True"), ("AC", InfoVal.str "5")] := by
  exact ⟨rfl, by simp, rfl, rfl⟩

/-! ## Claim C4 -/

/-- Claim C4 as stated is false on one point: `in_cis_with` can raise.
On a record with no FORMAT column, `GT_FORMAT` is `None` and the very
first test `'PID' not in self.GT_FORMAT` raises `TypeError`, although
such a record certainly lacks the phase-id field. -/
theorem C4_counterexample :
    in_cis_with ⟨none, some []⟩ ⟨none, some []⟩ "S" 1 1 =
      Except.error (PyErr.typeError notIterableMsg) := rfl

/-- Claim C4, amended: for records that have a FORMAT column and a
sample list, `in_cis_with` never raises and computes exactly the
specification's predicate `in_cis_spec`: false when either record's
FORMAT fields lack `PID` or `PGT`, when a sample lookup fails, when the
phase-ids differ, when either phase-genotype is `.`, or when either
allele index cannot be located in its pipe-delimited phase-genotype
string; true iff the two allele indices occupy the same position. -/
theorem C4_in_cis_refines (r1 r2 : GtRecord) (sample : String) (a b : Int)
    (f1 f2 : List String) (c1 c2 : List (String × String))
    (h1 : r1.gtFormat = some f1) (h2 : r2.gtFormat = some f2)
    (h3 : r1.calls = some c1) (h4 : r2.calls = some c2) :
    in_cis_with r1 r2 sample a b =
      Except.ok (in_cis_spec f1 f2 c1 c2 sample a b) := by
  simp only [in_cis_with, in_cis_spec, h1, h2, h3, h4]
  by_cases hp1 : "PID" ∈ f1
  case neg => simp [hp1]
  by_cases hp2 : "PID" ∈ f2
  case neg => simp [hp1, hp2]
  by_cases hg1 : "PGT" ∈ f1
  case neg => simp [hp1, hp2, hg1]
  by_cases hg2 : "PGT" ∈ f2
  case neg => simp [hp1, hp2, hg1, hg2]
  simp only [hp1, hp2, hg1, hg2, not_true_eq_false, decide_True, Bool.true_and,
    if_false]
  cases hq1 : getPhase f1 c1 sample "PID" with
  | none => simp
  | some pid1 =>
      cases hq2 : getPhase f2 c2 sample "PID" with
      | none => simp
      | some pid2 =>
          cases hq3 : getPhase f1 c1 sample "PGT" with
          | none => simp
          | some pgt1 =>
              cases hq4 : getPhase f2 c2 sample "PGT" with
              | none => simp
              | some pgt2 =>
                  by_cases hpid : pid1 = pid2
                  case neg => simp [hpid]
                  subst hpid
                  by_cases hd1 : pgt1 = "."
                  case pos => simp [hd1]
                  by_cases hd2 : pgt2 = "."
                  case pos => simp [hd1, hd2]
                  simp only [ne_eq, not_true_eq_false, if_false,
                    beq_self_eq_true, Bool.true_and]
                  rw [if_neg (by simp [hd1, hd2])]
                  cases hi1 : pyIndex (splitChar '|' pgt1) (toString a) with
                  | none =>
                      cases hi2 : pyIndex (splitChar '|' pgt2) (toString b) <;>
                        simp [hd1, hd2]
                  | some p1 =>
                      cases hi2 : pyIndex (splitChar '|' pgt2) (toString b) <;>
                        simp [hd1, hd2]

/-- Witness for C4: the specification's worked example - both records
share `PID=100_A_G`, record A has `PGT=0|1` and record B `PGT=1|0`, and
allele 1 of each record sits at different positions (1 versus 0), so the
comparator returns false; the theorem is applied at these concrete
records. -/
theorem C4_witness :
    in_cis_with ⟨some ["GT", "PID", "PGT"], some [("S", "0/1:100_A_G:0|1")]⟩
        ⟨some ["GT", "PID", "PGT"], some [("S", "0/1:100_A_G:1|0")]⟩ "S" 1 1 =
      Except.ok (in_cis_spec ["GT", "PID", "PGT"] ["GT", "PID", "PGT"]
        [("S", "0/1:100_A_G:0|1")] [("S", "0/1:100_A_G:1|0")] "S" 1 1) :=
  C4_in_cis_refines _ _ "S" 1 1 _ _ _ _ rfl rfl rfl rfl

/-! ## Claim C6 -/

/-- Claim C6: for a record with REF `A` and ALT `A,AT` (two ALT alleles,
none structural, no `ALLELE_NUM` in the annotation, and no non-`*` ALT
differing from REF at the first character), CSQ resolution left-trims one
character from every cached allele key - the emptied key `A` becomes the
missing-value marker `-`, `AT` becomes `T` - and an annotation whose
`Allele` field is `T` is mapped to `alt_index = 2`. -/
theorem C6_csq_allele_trimming :
    alt_index ["A", "A", "AT"] [("Allele", "T")] [] =
      Except.ok (2, [("-", 1), ("T", 2)]) := rfl

end ParseVcf
